import Mathlib

/-!
Verification of the weather analytics service: a shallow embedding of the
validation layer (`app/utils/validation.py`), the error taxonomy
(`app/utils/exceptions.py`), the analytics engine
(`app/services/analytics_service.py`) and the ingestion service
(`app/services/weather_service.py`), together with theorems settling the
spec claims about them.

Modelling conventions:
* Python numbers are modelled as `ℚ` (floats) and `ℤ` (ints); all concrete
  values appearing in the claims are exactly representable, so rational
  arithmetic agrees with float arithmetic on them.  `round(x, 2)` is
  round-half-to-even at two decimals, as in Python.
* Nullable columns are `Option`; Python truthiness of an int/float is
  "not zero", of a string "not empty", of `None` falsity.
* Exceptions are an explicit error type `Exc`; `try/except` blocks become
  handler functions over `Except Exc`.
* `datetime` values are year/month/day/hour/minute/second tuples compared
  lexicographically; `timedelta(days=n)` subtraction is exact calendar
  day-stepping (proleptic Gregorian, as Python's `datetime`).
* SQL queries are list combinators over an in-memory store: `filter` for
  `WHERE`, a stable insertion sort for `ORDER BY`, distinct keys for
  `GROUP BY`; an unordered query returns insertion order.
-/

namespace WeatherAnalytics

/-- Error kinds: the domain taxonomy of `app/utils/exceptions.py`
(`validationError`, `cityNotFoundError`, `weatherDataNotFoundError`,
`externalAPIError`), Python's builtin `ValueError`, and the low-level
exceptions of the `requests` library (`reqTimeout`, `reqConnError`,
`reqHTTPError` from `raise_for_status`, `reqJSONError` from `.json()`,
`reqOther` for any other `RequestException`) plus `indexError`. -/
inductive Exc where
  | valueError (msg : String)
  | validationError (msg : String)
  | cityNotFoundError (msg : String)
  | weatherDataNotFoundError (msg : String)
  | externalAPIError (msg : String)
  | reqTimeout
  | reqConnError
  | reqHTTPError (status : Nat)
  | reqJSONError
  | reqOther (msg : String)
  | indexError
  deriving DecidableEq, Repr

/-- Python's `round` ties-to-even applied to a rational, to the nearest
integer. -/
def roundHalfEven (q : ℚ) : ℤ :=
  if q - ⌊q⌋ < 1/2 then ⌊q⌋
  else if q - ⌊q⌋ > 1/2 then ⌊q⌋ + 1
  else if ⌊q⌋ % 2 = 0 then ⌊q⌋ else ⌊q⌋ + 1

/-- Python's `round(x, 2)`. -/
def round2 (q : ℚ) : ℚ := (roundHalfEven (q * 100) : ℚ) / 100

/-- Arithmetic mean with `mean [] = 0` (division by zero is zero in `ℚ`),
matching the code's `sum(xs)/len(xs) if xs else 0` pattern. -/
def mean (l : List ℚ) : ℚ := l.sum / l.length

/-- Minimum of a list, `Python min`; the `0` default is never reached by the
code, which guards every call with a non-emptiness test. -/
def listMin [LinearOrder α] [Zero α] : List α → α
  | [] => 0
  | x :: xs => xs.foldl Min.min x

/-- Maximum of a list, Python `max`, same convention as `listMin`. -/
def listMax [LinearOrder α] [Zero α] : List α → α
  | [] => 0
  | x :: xs => xs.foldl Max.max x

/-! ### Dates and datetimes -/

/-- A calendar date (the value of SQL `date(recorded_at)` / `datetime.date`). -/
structure Date where
  year : Nat
  month : Nat
  day : Nat
  deriving DecidableEq, Repr

/-- A `datetime.datetime` value (UTC wall-clock, second precision — the code
never uses sub-second components in comparisons or formatting). -/
structure DateTime where
  year : Nat
  month : Nat
  day : Nat
  hour : Nat
  minute : Nat
  second : Nat
  deriving DecidableEq, Repr

def DateTime.dateOf (t : DateTime) : Date := ⟨t.year, t.month, t.day⟩

/-- Lexicographic order on dates (Python `date` comparison). -/
def Date.Le (a b : Date) : Prop :=
  a.year < b.year ∨ (a.year = b.year ∧
    (a.month < b.month ∨ (a.month = b.month ∧ a.day ≤ b.day)))

/-- Strict lexicographic order on dates. -/
def Date.Lt (a b : Date) : Prop :=
  a.year < b.year ∨ (a.year = b.year ∧
    (a.month < b.month ∨ (a.month = b.month ∧ a.day < b.day)))

/-- Reversed order, used to model `ORDER BY ... DESC`. -/
def Date.Ge (a b : Date) : Prop := Date.Le b a

/-- Lexicographic order on datetimes (Python `datetime` comparison). -/
def DateTime.Le (a b : DateTime) : Prop :=
  a.year < b.year ∨ (a.year = b.year ∧
    (a.month < b.month ∨ (a.month = b.month ∧
      (a.day < b.day ∨ (a.day = b.day ∧
        (a.hour < b.hour ∨ (a.hour = b.hour ∧
          (a.minute < b.minute ∨ (a.minute = b.minute ∧
            a.second ≤ b.second)))))))))

instance : DecidableRel Date.Le := fun a b =>
  inferInstanceAs (Decidable (a.year < b.year ∨ (a.year = b.year ∧
    (a.month < b.month ∨ (a.month = b.month ∧ a.day ≤ b.day)))))

instance : DecidableRel Date.Lt := fun a b =>
  inferInstanceAs (Decidable (a.year < b.year ∨ (a.year = b.year ∧
    (a.month < b.month ∨ (a.month = b.month ∧ a.day < b.day)))))

instance : DecidableRel Date.Ge := fun a b =>
  inferInstanceAs (Decidable (b.year < a.year ∨ (b.year = a.year ∧
    (b.month < a.month ∨ (b.month = a.month ∧ b.day ≤ a.day)))))

instance : DecidableRel DateTime.Le := fun a b =>
  inferInstanceAs (Decidable (a.year < b.year ∨ (a.year = b.year ∧
    (a.month < b.month ∨ (a.month = b.month ∧
      (a.day < b.day ∨ (a.day = b.day ∧
        (a.hour < b.hour ∨ (a.hour = b.hour ∧
          (a.minute < b.minute ∨ (a.minute = b.minute ∧
            a.second ≤ b.second)))))))))))

instance : IsTotal Date Date.Le :=
  ⟨fun a b => by unfold Date.Le; omega⟩

instance : IsTrans Date Date.Le :=
  ⟨fun a b c hab hbc => by unfold Date.Le at *; omega⟩

instance : IsTotal Date Date.Ge :=
  ⟨fun a b => by unfold Date.Ge Date.Le; omega⟩

instance : IsTrans Date Date.Ge :=
  ⟨fun a b c hab hbc => by unfold Date.Ge Date.Le at *; omega⟩

instance : IsTotal DateTime DateTime.Le :=
  ⟨fun a b => by unfold DateTime.Le; omega⟩

instance : IsTrans DateTime DateTime.Le :=
  ⟨fun a b c hab hbc => by unfold DateTime.Le at *; omega⟩

/-- Zero-pad a number to two digits (`strftime` `%m`, `%d`, `%H`, `%M`, `%S`). -/
def pad2 (n : Nat) : String := if n < 10 then "0" ++ toString n else toString n

/-- Zero-pad a number to four digits (`strftime` `%Y`). -/
def pad4 (n : Nat) : String :=
  if n < 10 then "000" ++ toString n
  else if n < 100 then "00" ++ toString n
  else if n < 1000 then "0" ++ toString n
  else toString n

/-- Format a date as `YYYY-MM-DD`. -/
def Date.fmt (d : Date) : String :=
  pad4 d.year ++ "-" ++ pad2 d.month ++ "-" ++ pad2 d.day

/-- Format a datetime as `YYYY-MM-DD HH:MM:SS`
(`strftime("%Y-%m-%d %H:%M:%S")`). -/
def DateTime.fmtFull (t : DateTime) : String :=
  pad4 t.year ++ "-" ++ pad2 t.month ++ "-" ++ pad2 t.day ++ " " ++
    pad2 t.hour ++ ":" ++ pad2 t.minute ++ ":" ++ pad2 t.second

/-- Format a datetime as `YYYY-MM-DD` (`strftime("%Y-%m-%d")`). -/
def DateTime.fmtDate (t : DateTime) : String := t.dateOf.fmt

/-- Gregorian leap-year test (Python `calendar.isleap`). -/
def isLeapYear (y : Nat) : Bool :=
  (y % 4 == 0 && y % 100 != 0) || y % 400 == 0

/-- Number of days in a month of a given year. -/
def daysInMonth (y m : Nat) : Nat :=
  if m == 2 then (if isLeapYear y then 29 else 28)
  else if m == 4 || m == 6 || m == 9 || m == 11 then 30
  else 31

/-- The previous calendar day. -/
def Date.pred (d : Date) : Date :=
  if 2 ≤ d.day then ⟨d.year, d.month, d.day - 1⟩
  else if 2 ≤ d.month then ⟨d.year, d.month - 1, daysInMonth d.year (d.month - 1)⟩
  else ⟨d.year - 1, 12, 31⟩

/-- Step a date back by `n` days. -/
def Date.subDays (d : Date) : Nat → Date
  | 0 => d
  | Nat.succ k => (d.subDays k).pred

/-- Python `t - timedelta(days=n)`: whole-day subtraction keeps the
time-of-day component. -/
def DateTime.subDays (t : DateTime) (n : Nat) : DateTime :=
  let d := (t.dateOf).subDays n
  ⟨d.year, d.month, d.day, t.hour, t.minute, t.second⟩

/-! ### Validation (`app/utils/validation.py`) -/

/-- ASCII whitespace stripped by Python `str.strip()` and matched by `\s`
in the city-name pattern (space, tab, newline, carriage return, vertical
tab, form feed). -/
def pyIsSpace (c : Char) : Bool :=
  c == ' ' || c == '\t' || c == '\n' || c == '\r' ||
    c == Char.ofNat 11 || c == Char.ofNat 12

/-- Python `str.strip()`. -/
def pyStrip (s : String) : String :=
  ⟨((s.data.dropWhile pyIsSpace).reverse.dropWhile pyIsSpace).reverse⟩

/-- Character class of the city-name pattern: ASCII letters, whitespace,
hyphen and apostrophe (`Char.ofNat 39`). -/
def allowedCityChar (c : Char) : Bool :=
  c.isAlpha || pyIsSpace c || c == '-' || c == Char.ofNat 39

/-- Embedding of `validate_city_name` (validation.py lines 9-38).  Raising
`ValueError` becomes returning `Except.error (Exc.valueError msg)`. -/
def validate_city_name (city : String) : Except Exc String :=
  if city = "" then .error (.valueError "City name cannot be empty")
  else
    let city := pyStrip city
    if city.length < 2 then
      .error (.valueError "City name must be at least 2 characters")
    else if city.length > 100 then
      .error (.valueError "City name must be less than 100 characters")
    else if !(!city.data.isEmpty && city.data.all allowedCityChar) then
      .error (.valueError "City name contains invalid characters")
    else .ok city

/-- Digits of a decimal numeral to a number. -/
def digitsToNat (l : List Char) : Nat :=
  l.foldl (fun a c => a * 10 + (c.toNat - 48)) 0

/-- Split a character list on the hyphen separator (the effect of
`s.split("-")` on the date string). -/
def splitOnDash : List Char → List (List Char)
  | [] => [[]]
  | c :: rest =>
    if c = '-' then [] :: splitOnDash rest
    else
      match splitOnDash rest with
      | t :: ts => (c :: t) :: ts
      | [] => [[c]]

/-- Embedding of `datetime.strptime(s, "%Y-%m-%d")`: `%Y` is exactly four
digits, `%m` and `%d` are one or two digits in range (CPython `_strptime`),
the hyphens are literal and the whole string must be consumed; the
resulting date must be constructible (day in range for the month, year at
least `MINYEAR = 1`). -/
def parseYMD (s : String) : Option Date :=
  match splitOnDash s.data with
  | [ys, ms, ds] =>
    if ys.length == 4 && ys.all Char.isDigit &&
        decide (1 ≤ ms.length) && ms.length ≤ 2 && ms.all Char.isDigit &&
        decide (1 ≤ ds.length) && ds.length ≤ 2 && ds.all Char.isDigit then
      let y := digitsToNat ys
      let m := digitsToNat ms
      let d := digitsToNat ds
      if decide (1 ≤ y) && decide (1 ≤ m) && m ≤ 12 && decide (1 ≤ d) &&
          d ≤ daysInMonth y m then
        some ⟨y, m, d⟩
      else none
    else none
  | _ => none

/-- Embedding of `validate_date_format` (validation.py lines 41-60); a
parsed date is a datetime at midnight. -/
def validate_date_format (date_str : String) : Except Exc DateTime :=
  if date_str = "" then .error (.valueError "Date cannot be empty")
  else
    match parseYMD date_str with
    | some d => .ok ⟨d.year, d.month, d.day, 0, 0, 0⟩
    | none => .error (.valueError "Invalid date format. Use YYYY-MM-DD (e.g., 2026-01-19)")

/-- A Python value passed where an `int` is expected: either an `int`
(`isinstance(x, int)` holds) or some other value. -/
inductive PyNum where
  | int (n : ℤ)
  | nonInt (desc : String)
  deriving DecidableEq, Repr

/-- Embedding of `validate_days` (validation.py lines 63-90); `None` is
passed through unvalidated.  The callers always use `min_days = 1`,
`max_days = 365`. -/
def validate_days : Option PyNum → ℤ → ℤ → Except Exc (Option ℤ)
  | none, _, _ => .ok none
  | some (.nonInt _), _, _ => .error (.valueError "Days must be an integer")
  | some (.int n), min_days, max_days =>
    if n < min_days then
      .error (.valueError ("Days must be at least " ++ toString min_days))
    else if n > max_days then
      .error (.valueError ("Days must be at most " ++ toString max_days))
    else .ok (some n)

/-- Embedding of `validate_weeks` (validation.py lines 93-117). -/
def validate_weeks : PyNum → ℤ → ℤ → Except Exc ℤ
  | .nonInt _, _, _ => .error (.valueError "Weeks must be an integer")
  | .int n, min_weeks, max_weeks =>
    if n < min_weeks then
      .error (.valueError ("Weeks must be at least " ++ toString min_weeks))
    else if n > max_weeks then
      .error (.valueError ("Weeks must be at most " ++ toString max_weeks))
    else .ok n

/-- Embedding of `validate_months` (validation.py lines 120-144). -/
def validate_months : PyNum → ℤ → ℤ → Except Exc ℤ
  | .nonInt _, _, _ => .error (.valueError "Months must be an integer")
  | .int n, min_months, max_months =>
    if n < min_months then
      .error (.valueError ("Months must be at least " ++ toString min_months))
    else if n > max_months then
      .error (.valueError ("Months must be at most " ++ toString max_months))
    else .ok n

/-! ### Data model (`app/models.py`) and storage -/

/-- The `cities` table row. -/
structure City where
  id : Nat
  name : String
  country : Option String
  lat : ℚ
  lon : ℚ
  created_at : DateTime
  deriving DecidableEq, Repr

/-- The `weather_records` table row.  `temperature` is modelled as a plain
rational: every analytics routine reads it unconditionally, and ingestion
always stores the provider's `main.temp` (a record ingested from a payload
without `temp` would hold NULL; no claim depends on such a record, and the
ingestion claims only concern the raised error kind). -/
structure WeatherRecord where
  id : Nat
  city_id : Nat
  temperature : ℚ
  humidity : Option ℤ
  pressure : Option ℤ
  weather_main : Option String
  recorded_at : DateTime
  deriving DecidableEq, Repr

/-- The relational store: two tables in insertion order. -/
structure DB where
  cities : List City
  records : List WeatherRecord
  deriving DecidableEq, Repr

/-- `db.query(WeatherRecord).filter(WeatherRecord.city_id == cid).all()`
with no ORDER BY: the store returns insertion order. -/
def cityRecords (db : DB) (cid : Nat) : List WeatherRecord :=
  db.records.filter (fun r => r.city_id == cid)

/-- Comparison used by `ORDER BY recorded_at`. -/
def recordLe (a b : WeatherRecord) : Prop := DateTime.Le a.recorded_at b.recorded_at

instance : DecidableRel recordLe := fun a b =>
  inferInstanceAs (Decidable (DateTime.Le a.recorded_at b.recorded_at))

instance : IsTotal WeatherRecord recordLe :=
  ⟨fun a b => IsTotal.total (r := DateTime.Le) a.recorded_at b.recorded_at⟩

instance : IsTrans WeatherRecord recordLe :=
  ⟨fun _ _ _ hab hbc => IsTrans.trans (r := DateTime.Le) _ _ _ hab hbc⟩

/-- `ORDER BY recorded_at` (ascending), a stable sort. -/
def orderByRecordedAt (l : List WeatherRecord) : List WeatherRecord :=
  l.insertionSort recordLe

/-! ### Analytics engine (`app/services/analytics_service.py`) -/

/-- One row of the daily-average result (analytics_service.py lines 41-48). -/
structure DailyRow where
  date : String
  avg_temperature : ℚ
  record_count : Nat
  deriving DecidableEq, Repr

/-- Embedding of `get_daily_average_temperature` (analytics_service.py
lines 6-48): filter by city, optionally by `recorded_at >= now - days`
(note `if days:` — a present-but-zero value skips the filter), group by
`date(recorded_at)`, average and count per group, order groups by date
descending.  `now` stands for `datetime.utcnow()`. -/
def get_daily_average_temperature (db : DB) (city_id : Nat)
    (days : Option Nat) (now : DateTime) : List DailyRow :=
  let base := cityRecords db city_id
  let recs : List WeatherRecord :=
    match days with
    | some d =>
      if d ≠ 0 then
        base.filter (fun r => decide (DateTime.Le (now.subDays d) r.recorded_at))
      else base
    | none => base
  let dates := ((recs.map (fun r => r.recorded_at.dateOf)).dedup).insertionSort Date.Ge
  dates.map (fun dt =>
    let group := recs.filter (fun r => r.recorded_at.dateOf == dt)
    { date := dt.fmt,
      avg_temperature := round2 ((group.map (fun r => r.temperature)).sum / group.length),
      record_count := group.length })

/-- One element of the trend result's `daily_data` (lines 102-110). -/
structure DailyTrendEntry where
  date : String
  temperature : ℚ
  humidity : Option ℤ
  pressure : Option ℤ
  deriving DecidableEq, Repr

/-- The trend result dictionary (lines 112-120). -/
structure TrendResult where
  avg_temperature : ℚ
  min_temperature : ℚ
  max_temperature : ℚ
  temperature_change : ℚ
  trend_direction : String
  record_count : Nat
  daily_data : List DailyTrendEntry
  deriving DecidableEq, Repr

/-- The query of `get_weather_trend` (analytics_service.py lines 63-72):
all records of the city with `start_date <= recorded_at <= end_date` where
`end_date = now` and `start_date = now - timedelta(days=days)`, ordered
ascending by `recorded_at`. -/
def trendWindow (db : DB) (city_id : Nat) (days : Nat)
    (now : DateTime) : List WeatherRecord :=
  let start_date := now.subDays days
  orderByRecordedAt ((cityRecords db city_id).filter (fun r =>
    decide (DateTime.Le start_date r.recorded_at) &&
      decide (DateTime.Le r.recorded_at now)))

/-- Embedding of `get_weather_trend` (analytics_service.py lines 51-120). -/
def get_weather_trend (db : DB) (city_id : Nat) (days : Nat)
    (now : DateTime) : Option TrendResult :=
  let records := trendWindow db city_id days now
  if records.isEmpty then none
  else
    let temperatures := records.map (fun r => r.temperature)
    let avg_temp := temperatures.sum / temperatures.length
    let min_temp := listMin temperatures
    let max_temp := listMax temperatures
    let first_half := temperatures.take (temperatures.length / 2)
    let second_half := temperatures.drop (temperatures.length / 2)
    let first_avg := if !first_half.isEmpty then first_half.sum / first_half.length else 0
    let second_avg := if !second_half.isEmpty then second_half.sum / second_half.length else 0
    let temp_change := second_avg - first_avg
    let trend_direction :=
      if temp_change > 1/2 then "increasing"
      else if temp_change < -(1/2) then "decreasing"
      else "stable"
    some
      { avg_temperature := round2 avg_temp,
        min_temperature := round2 min_temp,
        max_temperature := round2 max_temp,
        temperature_change := round2 temp_change,
        trend_direction := trend_direction,
        record_count := records.length,
        daily_data := records.map (fun r =>
          { date := r.recorded_at.fmtDate,
            temperature := r.temperature,
            humidity := r.humidity,
            pressure := r.pressure }) }

/-- Integer-valued statistics block (`average` is a rounded float, `min`
and `max` raw integers). -/
structure StatsZ where
  average : ℚ
  min : ℤ
  max : ℤ
  deriving DecidableEq, Repr

/-- Float-valued statistics block (all three rounded). -/
structure StatsQ where
  average : ℚ
  min : ℚ
  max : ℚ
  deriving DecidableEq, Repr

/-- The patterns result dictionary (lines 165-170). -/
structure PatternsResult where
  humidity : StatsZ
  pressure : StatsZ
  weather_conditions : List (String × Nat)
  total_records : Nat
  deriving DecidableEq, Repr

/-- Python `counts[c] = counts.get(c, 0) + 1` on an insertion-ordered
dictionary. -/
def dictBump (l : List (String × Nat)) (k : String) : List (String × Nat) :=
  match l with
  | [] => [(k, 1)]
  | (k0, v) :: rest =>
    if k0 = k then (k0, v + 1) :: rest else (k0, v) :: dictBump rest k

/-- Truthy humidity values: `[r.humidity for r in records if r.humidity]`. -/
def truthyHum (records : List WeatherRecord) : List ℤ :=
  records.filterMap (fun r =>
    match r.humidity with
    | some h => if h ≠ 0 then some h else none
    | none => none)

/-- Truthy pressure values. -/
def truthyPress (records : List WeatherRecord) : List ℤ :=
  records.filterMap (fun r =>
    match r.pressure with
    | some p => if p ≠ 0 then some p else none
    | none => none)

/-- Truthy condition labels: `[r.weather_main for r in records if r.weather_main]`. -/
def truthyConds (records : List WeatherRecord) : List String :=
  records.filterMap (fun r =>
    match r.weather_main with
    | some s => if s ≠ "" then some s else none
    | none => none)

/-- Embedding of `get_humidity_pressure_patterns` (analytics_service.py
lines 122-170). -/
def get_humidity_pressure_patterns (db : DB) (city_id : Nat) :
    Option PatternsResult :=
  let records := cityRecords db city_id
  if records.isEmpty then none
  else
    let humidities := truthyHum records
    let pressures := truthyPress records
    let weather_conditions := truthyConds records
    some
      { humidity :=
          { average := if !humidities.isEmpty then round2 ((humidities.sum : ℚ) / humidities.length) else 0,
            min := if !humidities.isEmpty then listMin humidities else 0,
            max := if !humidities.isEmpty then listMax humidities else 0 },
        pressure :=
          { average := if !pressures.isEmpty then round2 ((pressures.sum : ℚ) / pressures.length) else 0,
            min := if !pressures.isEmpty then listMin pressures else 0,
            max := if !pressures.isEmpty then listMax pressures else 0 },
        weather_conditions := weather_conditions.foldl dictBump [],
        total_records := records.length }

/-- Per-city block of the comparison result (lines 292-312). -/
structure CityComparison where
  city_id : Nat
  country : Option String
  temperature : StatsQ
  humidity : StatsZ
  pressure : StatsZ
  total_records : Nat
  latest_record : Option String
  deriving DecidableEq, Repr

/-- Python `d[k] = v` on an insertion-ordered dictionary: replace in place
or append. -/
def dictSet (l : List (String × CityComparison)) (k : String)
    (v : CityComparison) : List (String × CityComparison) :=
  match l with
  | [] => [(k, v)]
  | (k0, v0) :: rest =>
    if k0 = k then (k0, v) :: rest else (k0, v0) :: dictSet rest k v

/-- The per-city statistics block built by `compare_cities` for a resolved
city (analytics_service.py lines 279-312). -/
def buildComparison (db : DB) (city_obj : City) : CityComparison :=
  let records := cityRecords db city_obj.id
  let temperatures := records.filterMap (fun r =>
    if r.temperature ≠ 0 then some r.temperature else none)
  let humidities := truthyHum records
  let pressures := truthyPress records
  { city_id := city_obj.id,
    country := city_obj.country,
    temperature :=
      { average := if !temperatures.isEmpty then round2 (temperatures.sum / temperatures.length) else 0,
        min := if !temperatures.isEmpty then round2 (listMin temperatures) else 0,
        max := if !temperatures.isEmpty then round2 (listMax temperatures) else 0 },
    humidity :=
      { average := if !humidities.isEmpty then round2 ((humidities.sum : ℚ) / humidities.length) else 0,
        min := if !humidities.isEmpty then listMin humidities else 0,
        max := if !humidities.isEmpty then listMax humidities else 0 },
    pressure :=
      { average := if !pressures.isEmpty then round2 ((pressures.sum : ℚ) / pressures.length) else 0,
        min := if !pressures.isEmpty then listMin pressures else 0,
        max := if !pressures.isEmpty then listMax pressures else 0 },
    total_records := records.length,
    latest_record :=
      match records.getLast? with
      | some r => some r.recorded_at.fmtFull
      | none => none }

/-- One iteration of the `compare_cities` loop (analytics_service.py lines
274-312): look the city up by exact name (`first()` = first match in
insertion order); skip silently when there is no such city or it has no
records, otherwise store its statistics under the name. -/
def compareStep (db : DB) (comparison_data : List (String × CityComparison))
    (city_name : String) : List (String × CityComparison) :=
  match db.cities.find? (fun c => c.name == city_name) with
  | none => comparison_data
  | some city_obj =>
    if (cityRecords db city_obj.id).isEmpty then comparison_data
    else dictSet comparison_data city_name (buildComparison db city_obj)

/-- Embedding of `compare_cities` (analytics_service.py lines 261-314). -/
def compare_cities (db : DB) (city_names : List String) :
    List (String × CityComparison) :=
  city_names.foldl (compareStep db) []

/-- Whether a name resolves for comparison: the stored lookup (first City
with that exact name) exists and has at least one weather record. -/
def resolvesCity (db : DB) (s : String) : Bool :=
  match db.cities.find? (fun c => c.name == s) with
  | some c => !(cityRecords db c.id).isEmpty
  | none => false

/-- One exported record (lines 339-349). -/
structure ExportRow where
  id : Nat
  recorded_at : String
  temperature : ℚ
  humidity : Option ℤ
  pressure : Option ℤ
  weather_main : Option String
  deriving DecidableEq, Repr

/-- Projection of a stored record to its export row. -/
def exportRow (r : WeatherRecord) : ExportRow :=
  { id := r.id,
    recorded_at := r.recorded_at.fmtFull,
    temperature := r.temperature,
    humidity := r.humidity,
    pressure := r.pressure,
    weather_main := r.weather_main }

/-- Embedding of `export_historical_data` (analytics_service.py lines
317-349): filter by city, then `recorded_at >= start_date` when a start is
given and `recorded_at <= end_date` when an end is given (a `datetime` is
always truthy, so `if start_date:` is exactly presence), order ascending
by `recorded_at`, project. -/
def export_historical_data (db : DB) (city_id : Nat)
    (start_date end_date : Option DateTime) : List ExportRow :=
  let q1 := cityRecords db city_id
  let q2 :=
    match start_date with
    | some sd => q1.filter (fun r => decide (DateTime.Le sd r.recorded_at))
    | none => q1
  let q3 :=
    match end_date with
    | some ed => q2.filter (fun r => decide (DateTime.Le r.recorded_at ed))
    | none => q2
  (orderByRecordedAt q3).map exportRow

/-! ### Ingestion service (`app/services/weather_service.py`) -/

/-- The provider payload's `coord` object. -/
structure Coord where
  lat : Option ℚ
  lon : Option ℚ
  deriving DecidableEq, Repr

/-- The provider payload's `main` object. -/
structure MainData where
  temp : Option ℚ
  humidity : Option ℤ
  pressure : Option ℤ
  deriving DecidableEq, Repr

/-- One element of the provider payload's `weather` array. -/
structure WeatherInfo where
  main : Option String
  deriving DecidableEq, Repr

/-- A decoded provider JSON payload; each `Option` is presence of the key. -/
structure Payload where
  main : Option MainData
  weather : Option (List WeatherInfo)
  name : Option String
  coord : Option Coord
  country : Option String
  deriving DecidableEq, Repr

/-- An HTTP response from the provider; `body = none` models a body that
`.json()` cannot decode. -/
structure HttpResponse where
  status : Nat
  body : Option Payload
  deriving DecidableEq, Repr

/-- RequestException and its subclasses (`Timeout`, `ConnectionError`,
`HTTPError` from `raise_for_status`, JSON decode failure, others). -/
def isRequestException : Exc → Bool
  | .reqTimeout => true
  | .reqConnError => true
  | .reqHTTPError _ => true
  | .reqJSONError => true
  | .reqOther _ => true
  | _ => false

/-- The `except` clauses of `fetch_weather_from_api` (weather_service.py
lines 45-52): `Timeout` and `ConnectionError` become `ExternalAPIError`
with their own messages, `ValidationError` is re-raised, any other
`RequestException` becomes `ExternalAPIError`; exceptions of other classes
(including `ExternalAPIError` raised inside the `try`) propagate. -/
def handleFetchExc (r : Except Exc Payload) : Except Exc Payload :=
  match r with
  | .error .reqTimeout =>
    .error (.externalAPIError "Weather API request timed out. Please try again later.")
  | .error .reqConnError =>
    .error (.externalAPIError "Failed to connect to weather API. Please check your internet connection.")
  | .error (.validationError m) => .error (.validationError m)
  | .error e =>
    if isRequestException e then
      .error (.externalAPIError "Failed to fetch weather data")
    else .error e
  | .ok d => .ok d

/-- Embedding of `fetch_weather_from_api` (weather_service.py lines 9-52).
`apiKeySet` is whether `OPENWEATHER_API_KEY` is configured; `getResult` is
the outcome of `requests.get` (a response, or a raised `Timeout`,
`ConnectionError` or other `RequestException`).  `raise_for_status` raises
`HTTPError` exactly for status codes in `[400, 600)`. -/
def fetch_weather_from_api (city_name : String) (apiKeySet : Bool)
    (getResult : Except Exc HttpResponse) : Except Exc Payload :=
  if !apiKeySet then
    .error (.externalAPIError "OpenWeather API key is not configured")
  else
    handleFetchExc (do
      let response ← getResult
      if response.status = 404 then
        throw (.validationError ("City " ++ city_name ++ " not found. Please check the city name."))
      else if response.status = 401 then
        throw (.externalAPIError "Invalid OpenWeather API key")
      else if 400 ≤ response.status ∧ response.status < 600 then
        throw (.reqHTTPError response.status)
      else
        match response.body with
        | none => throw .reqJSONError
        | some data =>
          if data.main.isNone || data.weather.isNone then
            throw (.externalAPIError "Invalid response from weather API")
          else pure data)

/-- Fresh surrogate id for an inserted city. -/
def nextCityId (db : DB) : Nat := (db.cities.map (fun c => c.id)).foldl Max.max 0 + 1

/-- Fresh surrogate id for an inserted weather record. -/
def nextRecordId (db : DB) : Nat := (db.records.map (fun r => r.id)).foldl Max.max 0 + 1

/-- Embedding of `get_or_create_city` (weather_service.py lines 55-74):
look up by exact name (`first()` = first match in insertion order) or
append a new row. -/
def get_or_create_city (db : DB) (city_name : String) (lat lon : ℚ)
    (country : Option String) (now : DateTime) : City × DB :=
  match db.cities.find? (fun c => c.name == city_name) with
  | some city => (city, db)
  | none =>
    let new_city : City :=
      { id := nextCityId db, name := city_name, country := country,
        lat := lat, lon := lon, created_at := now }
    (new_city, { db with cities := db.cities ++ [new_city] })

/-- Embedding of `save_weather_record` (weather_service.py lines 77-96).
`weather_data.get("weather", [{}])[0]` raises `IndexError` when the
`weather` key holds an empty array; a missing `main.temp` would store NULL
(modelled as 0 — see `WeatherRecord.temperature`). -/
def save_weather_record (db : DB) (city_id : Nat) (weather_data : Payload)
    (now : DateTime) : Except Exc (WeatherRecord × DB) :=
  let main_data := weather_data.main.getD ⟨none, none, none⟩
  match weather_data.weather.getD [⟨none⟩] with
  | [] => .error .indexError
  | weather_info :: _ =>
    let weather_record : WeatherRecord :=
      { id := nextRecordId db,
        city_id := city_id,
        temperature := (main_data.temp).getD 0,
        humidity := main_data.humidity,
        pressure := main_data.pressure,
        weather_main := weather_info.main,
        recorded_at := now }
    .ok (weather_record, { db with records := db.records ++ [weather_record] })

/-- The `except` clauses of `fetch_and_save_weather` (weather_service.py
lines 129-132): `ExternalAPIError` and `ValidationError` are re-raised,
every other exception is wrapped into `ExternalAPIError`. -/
def handleUnexpected (r : Except Exc (WeatherRecord × DB)) :
    Except Exc (WeatherRecord × DB) :=
  match r with
  | .error (.externalAPIError m) => .error (.externalAPIError m)
  | .error (.validationError m) => .error (.validationError m)
  | .error _ => .error (.externalAPIError "Unexpected error while fetching weather")
  | .ok v => .ok v

/-- Embedding of `fetch_and_save_weather` (weather_service.py lines
99-132): fetch, extract name/coordinates/country, fail with
`ExternalAPIError` when the name is falsy or a coordinate missing,
get-or-create the city, append the record stamped `now`
(`datetime.utcnow()` — ingestion time). -/
def fetch_and_save_weather (db : DB) (city_name : String) (apiKeySet : Bool)
    (getResult : Except Exc HttpResponse) (now : DateTime) :
    Except Exc (WeatherRecord × DB) :=
  handleUnexpected (do
    let weather_data ← fetch_weather_from_api city_name apiKeySet getResult
    let city_name_from_api := weather_data.name.getD ""
    let coord := weather_data.coord.getD ⟨none, none⟩
    let country := weather_data.country
    if city_name_from_api = "" ∨ coord.lat.isNone ∨ coord.lon.isNone then
      throw (.externalAPIError "Invalid weather data received from API")
    else
      let cdb := get_or_create_city db city_name_from_api
        (coord.lat.getD 0) (coord.lon.getD 0) country now
      save_weather_record cdb.2 cdb.1.id weather_data now)

/-! ### Concrete fixtures and spec-side vocabulary used by the theorems -/

/-- C4 counterexample input: a fully populated provider payload. -/
def payloadFull : Payload :=
  { main := some ⟨some 20, some 50, some 1013⟩,
    weather := some [⟨some "Clear"⟩],
    name := some "London",
    coord := some ⟨some (515/10), some (-1/10)⟩,
    country := some "GB" }

/-- An empty store. -/
def dbEmpty : DB := ⟨[], []⟩

/-- A fixed ingestion instant. -/
def now0 : DateTime := ⟨2026, 1, 19, 12, 0, 0⟩

/-- Spec-side vocabulary for C3: the in-window temperature sequence. -/
def trendTemps (db : DB) (city_id days : Nat) (now : DateTime) : List ℚ :=
  (trendWindow db city_id days now).map (fun r => r.temperature)

/-- Spec-side vocabulary for C3: `mean(second half) − mean(first half)`
when the ordered temperature list is split at index `⌊n/2⌋` (an empty half
has mean 0). -/
def trendChange (db : DB) (city_id days : Nat) (now : DateTime) : ℚ :=
  mean ((trendTemps db city_id days now).drop
      ((trendTemps db city_id days now).length / 2)) -
    mean ((trendTemps db city_id days now).take
      ((trendTemps db city_id days now).length / 2))

/-- Four ascending records with temperatures 10, 10, 20, 20 (the spec's
trend example). -/
def dbTrend : DB :=
  { cities := [⟨1, "Tokyo", some "JP", 0, 0, now0⟩],
    records :=
      [⟨1, 1, 10, some 50, some 1013, some "Clear", ⟨2026, 1, 16, 0, 0, 0⟩⟩,
       ⟨2, 1, 10, some 50, some 1013, some "Clear", ⟨2026, 1, 17, 0, 0, 0⟩⟩,
       ⟨3, 1, 20, some 50, some 1013, some "Clear", ⟨2026, 1, 18, 0, 0, 0⟩⟩,
       ⟨4, 1, 20, some 50, some 1013, some "Clear", ⟨2026, 1, 19, 0, 0, 0⟩⟩] }


/-- Two records with humidities 40 and 60 and no other falsy values (the
spec's patterns example). -/
def dbPatterns : DB :=
  { cities := [⟨1, "Tokyo", some "JP", 0, 0, now0⟩],
    records :=
      [⟨1, 1, 15, some 40, some 1013, some "Clear", ⟨2026, 1, 18, 6, 0, 0⟩⟩,
       ⟨2, 1, 17, some 60, some 1015, some "Rain", ⟨2026, 1, 19, 6, 0, 0⟩⟩] }

/-- Records whose humidity values are all `None` or 0 and whose pressure
values are all `None` or 0. -/
def dbFalsy : DB :=
  { cities := [⟨1, "Lima", some "PE", 0, 0, now0⟩],
    records :=
      [⟨1, 1, 15, none, some 0, some "Clear", ⟨2026, 1, 18, 6, 0, 0⟩⟩,
       ⟨2, 1, 17, some 0, none, some "Rain", ⟨2026, 1, 19, 6, 0, 0⟩⟩] }

/-- A store with two cities that have data and whose first city's records
are stored out of chronological order (the last stored record is not the
most recent one). -/
def dbCompare : DB :=
  { cities := [⟨1, "Tokyo", some "JP", 0, 0, now0⟩, ⟨2, "Paris", some "FR", 0, 0, now0⟩],
    records :=
      [⟨1, 1, 15, some 40, some 1013, some "Clear", ⟨2026, 1, 19, 10, 0, 0⟩⟩,
       ⟨2, 2, 5, some 70, some 1020, some "Rain", ⟨2026, 1, 19, 11, 0, 0⟩⟩,
       ⟨3, 1, 17, some 60, some 1015, some "Rain", ⟨2026, 1, 18, 9, 0, 0⟩⟩] }

/-- Spec-side vocabulary for C2: the lower bound test, dropped when the
bound is absent. -/
def boundAfter (s : Option DateTime) (r : WeatherRecord) : Bool :=
  match s with
  | some sd => decide (DateTime.Le sd r.recorded_at)
  | none => true

/-- Spec-side vocabulary for C2: the upper bound test, dropped when the
bound is absent. -/
def boundBefore (e : Option DateTime) (r : WeatherRecord) : Bool :=
  match e with
  | some ed => decide (DateTime.Le r.recorded_at ed)
  | none => true

/-- A store holding exactly one record, recorded at 14:30:00 on
2026-01-19. -/
def dbExport : DB :=
  { cities := [⟨1, "Tokyo", some "JP", 0, 0, now0⟩],
    records :=
      [⟨1, 1, 15, some 40, some 1013, some "Clear", ⟨2026, 1, 19, 14, 30, 0⟩⟩] }

/-- Spec-side vocabulary for C9: a record is kept when it belongs to the
city and, when a day window is given, `recorded_at >= now - days`. -/
def dailyWindowKeep (city_id : Nat) (days : Option Nat) (now : DateTime)
    (r : WeatherRecord) : Bool :=
  r.city_id == city_id &&
    (match days with
     | some d => decide (DateTime.Le (now.subDays d) r.recorded_at)
     | none => true)

/-- Records for one city over three calendar dates, with temperatures
[10, 20, 30] on the earliest date (the spec's daily-average example). -/
def dbDaily : DB :=
  { cities := [⟨1, "Tokyo", some "JP", 0, 0, now0⟩],
    records :=
      [⟨1, 1, 10, some 50, some 1013, some "Clear", ⟨2026, 1, 16, 8, 0, 0⟩⟩,
       ⟨2, 1, 20, some 50, some 1013, some "Clear", ⟨2026, 1, 16, 9, 0, 0⟩⟩,
       ⟨3, 1, 30, some 50, some 1013, some "Clear", ⟨2026, 1, 16, 10, 0, 0⟩⟩,
       ⟨4, 1, 5, some 50, some 1013, some "Rain", ⟨2026, 1, 17, 8, 0, 0⟩⟩,
       ⟨5, 1, 7, some 50, some 1013, some "Rain", ⟨2026, 1, 18, 8, 0, 0⟩⟩] }

/-! ### Theorems -/

/-- C1, counterexample: `validate_city_name` on the empty string fails with
the builtin `ValueError` kind and not with the domain `ValidationError`
kind (of any message), refuting the claim that every validation failure is
raised as `ValidationError`. -/
theorem validate_city_name_fails_with_valueError :
    validate_city_name "" = Except.error (Exc.valueError "City name cannot be empty") ∧
    ∀ m : String, validate_city_name "" ≠ Except.error (Exc.validationError m) := by
  constructor
  · rfl
  · intro m h
    simp only [validate_city_name] at h
    simp at h

/-- C1 (amended): every failure of the five validation functions is raised
as Python's builtin `ValueError` (a generic error), never as the domain
`ValidationError` kind; the boundary's `ValidationError → HTTP 400`
mapping therefore does not catch these failures. -/
theorem validation_failures_are_valueError :
    (∀ s e, validate_city_name s = .error e → ∃ m, e = Exc.valueError m) ∧
    (∀ s e, validate_date_format s = .error e → ∃ m, e = Exc.valueError m) ∧
    (∀ v lo hi e, validate_days v lo hi = .error e → ∃ m, e = Exc.valueError m) ∧
    (∀ v lo hi e, validate_weeks v lo hi = .error e → ∃ m, e = Exc.valueError m) ∧
    (∀ v lo hi e, validate_months v lo hi = .error e → ∃ m, e = Exc.valueError m) := by
  refine ⟨?_, ?_, ?_, ?_, ?_⟩
  · intro s e h
    simp only [validate_city_name] at h
    split_ifs at h <;>
      first
      | (injection h with h1; exact ⟨_, h1.symm⟩)
      | simp_all
  · intro s e h
    unfold validate_date_format at h
    split_ifs at h
    · injection h with h1
      exact ⟨_, h1.symm⟩
    · split at h
      · simp_all
      · injection h with h1
        exact ⟨_, h1.symm⟩
  · intro v lo hi e h
    rcases v with _ | v
    · simp_all [validate_days]
    · rcases v with n | d
      · simp only [validate_days] at h
        split_ifs at h <;>
          first
          | (injection h with h1; exact ⟨_, h1.symm⟩)
          | simp_all
      · simp only [validate_days] at h
        injection h with h1
        exact ⟨_, h1.symm⟩
  · intro v lo hi e h
    rcases v with n | d
    · simp only [validate_weeks] at h
      split_ifs at h <;>
        first
        | (injection h with h1; exact ⟨_, h1.symm⟩)
        | simp_all
    · simp only [validate_weeks] at h
      injection h with h1
      exact ⟨_, h1.symm⟩
  · intro v lo hi e h
    rcases v with n | d
    · simp only [validate_months] at h
      split_ifs at h <;>
        first
        | (injection h with h1; exact ⟨_, h1.symm⟩)
        | simp_all
    · simp only [validate_months] at h
      injection h with h1
      exact ⟨_, h1.symm⟩

/-- C1 witness: the amended theorem applied to a concrete failing input of
each function. -/
theorem validation_failures_are_valueError_witness :
    ∃ m, Exc.valueError "City name contains invalid characters" = Exc.valueError m :=
  validation_failures_are_valueError.1 "Tokyo1"
    (Exc.valueError "City name contains invalid characters") rfl

/-- C8: `validate_days` with its contract bounds 1 and 365 returns every
in-range integer unchanged, fails below 1 and above 365, fails on any
non-integer input, and passes `None` through unvalidated. -/
theorem validate_days_contract :
    (∀ d : ℤ, 1 ≤ d → d ≤ 365 →
      validate_days (some (PyNum.int d)) 1 365 = .ok (some d)) ∧
    (∀ d : ℤ, d < 1 →
      ∃ m, validate_days (some (PyNum.int d)) 1 365 = .error (Exc.valueError m)) ∧
    (∀ d : ℤ, 365 < d →
      ∃ m, validate_days (some (PyNum.int d)) 1 365 = .error (Exc.valueError m)) ∧
    (∀ s, ∃ m, validate_days (some (PyNum.nonInt s)) 1 365 = .error (Exc.valueError m)) ∧
    validate_days none 1 365 = .ok none := by
  refine ⟨?_, ?_, ?_, ?_, rfl⟩
  · intro d h1 h2
    simp only [validate_days]
    split_ifs <;> first | rfl | omega
  · intro d h1
    simp only [validate_days]
    split_ifs <;> first | exact ⟨_, rfl⟩ | omega
  · intro d h1
    simp only [validate_days]
    split_ifs <;> first | exact ⟨_, rfl⟩ | omega
  · intro s
    exact ⟨_, rfl⟩

/-- C8 witness: the contract applied at the concrete day counts 42 (valid),
0 (too small) and 366 (too large). -/
theorem validate_days_contract_witness :
    validate_days (some (PyNum.int 42)) 1 365 = .ok (some 42) ∧
    (∃ m, validate_days (some (PyNum.int 0)) 1 365 = .error (Exc.valueError m)) ∧
    (∃ m, validate_days (some (PyNum.int 366)) 1 365 = .error (Exc.valueError m)) :=
  ⟨validate_days_contract.1 42 (by decide) (by decide),
   validate_days_contract.2.1 0 (by decide),
   validate_days_contract.2.2.1 366 (by decide)⟩

/-! ### Monad reduction helpers for `Except Exc` -/

theorem exceptBind_ok (a : α) (f : α → Except Exc β) :
    (Except.ok a >>= f) = f a := rfl

theorem exceptBind_error (e : Exc) (f : α → Except Exc β) :
    ((Except.error e : Except Exc α) >>= f) = Except.error e := rfl

theorem exceptThrow_eq (e : Exc) : (throw e : Except Exc α) = Except.error e := rfl

theorem exceptPure_eq (a : α) : (pure a : Except Exc α) = Except.ok a := rfl

/-- Every error produced by the wrapping handler is one of the two domain
kinds that `fetch_and_save_weather` re-raises. -/
theorem handleUnexpected_error (r : Except Exc (WeatherRecord × DB)) (e : Exc)
    (h : handleUnexpected r = .error e) :
    (∃ m, e = Exc.validationError m) ∨ (∃ m, e = Exc.externalAPIError m) := by
  rcases r with e0 | v
  · rcases e0 <;>
      (simp only [handleUnexpected] at h
       injection h with h1
       first
       | exact Or.inl ⟨_, h1.symm⟩
       | exact Or.inr ⟨_, h1.symm⟩)
  · simp [handleUnexpected] at h

/-- C4, counterexample: a provider response with the non-2xx status 300 and
a complete payload makes `fetch_and_save_weather` succeed — it raises
nothing at all — because `raise_for_status` only raises for statuses in
`[400, 600)`; this refutes the claim that any other non-2xx status raises
`ExternalAPIError`. -/
theorem fetch_and_save_status300_succeeds :
    (300 < 200 ∨ 299 < 300) ∧
    (fetch_and_save_weather dbEmpty "London" true
      (Except.ok ⟨300, some payloadFull⟩) now0).isOk = true := by
  constructor
  · right
    decide
  · rfl

/-- C4 (amended): `fetch_and_save_weather` raises only the two domain kinds
`ValidationError` and `ExternalAPIError`; provider HTTP 404 raises
`ValidationError`; HTTP 401, a timeout, a connection failure, any other
4xx/5xx status, and a payload missing `main` or `weather` raise
`ExternalAPIError`; every other exception is wrapped into
`ExternalAPIError` (a non-2xx status outside `[400, 600)`, such as a 3xx,
raises nothing — see the counterexample). -/
theorem fetch_and_save_error_taxonomy :
    (∀ db city_name keySet getResult now e,
      fetch_and_save_weather db city_name keySet getResult now = .error e →
        (∃ m, e = Exc.validationError m) ∨ (∃ m, e = Exc.externalAPIError m)) ∧
    (∀ db city_name now resp, resp.status = 404 →
      ∃ m, fetch_and_save_weather db city_name true (.ok resp) now =
        .error (Exc.validationError m)) ∧
    (∀ db city_name now resp, resp.status = 401 →
      ∃ m, fetch_and_save_weather db city_name true (.ok resp) now =
        .error (Exc.externalAPIError m)) ∧
    (∀ db city_name now,
      ∃ m, fetch_and_save_weather db city_name true (.error Exc.reqTimeout) now =
        .error (Exc.externalAPIError m)) ∧
    (∀ db city_name now,
      ∃ m, fetch_and_save_weather db city_name true (.error Exc.reqConnError) now =
        .error (Exc.externalAPIError m)) ∧
    (∀ db city_name now resp, resp.status ≠ 404 → resp.status ≠ 401 →
      400 ≤ resp.status → resp.status < 600 →
      ∃ m, fetch_and_save_weather db city_name true (.ok resp) now =
        .error (Exc.externalAPIError m)) ∧
    (∀ db city_name now resp data, resp.status < 400 → resp.body = some data →
      data.main = none ∨ data.weather = none →
      ∃ m, fetch_and_save_weather db city_name true (.ok resp) now =
        .error (Exc.externalAPIError m)) := by
  refine ⟨?_, ?_, ?_, ?_, ?_, ?_, ?_⟩
  · intro db city_name keySet getResult now e h
    exact handleUnexpected_error _ e h
  · intro db city_name now resp h404
    rcases resp with ⟨s, b⟩
    dsimp only at h404
    subst h404
    exact ⟨_, rfl⟩
  · intro db city_name now resp h401
    rcases resp with ⟨s, b⟩
    dsimp only at h401
    subst h401
    exact ⟨_, rfl⟩
  · intro db city_name now
    exact ⟨_, rfl⟩
  · intro db city_name now
    exact ⟨_, rfl⟩
  · intro db city_name now resp hne4 hne1 hlo hhi
    rcases resp with ⟨s, b⟩
    dsimp only at hne4 hne1 hlo hhi
    refine ⟨"Failed to fetch weather data", ?_⟩
    simp only [fetch_and_save_weather, fetch_weather_from_api, Bool.not_true,
      Bool.false_eq_true, if_false, exceptBind_ok]
    rw [if_neg hne4, if_neg hne1, if_pos ⟨hlo, hhi⟩]
    rfl
  · intro db city_name now resp data hlt hbody hmiss
    rcases resp with ⟨s, b⟩
    dsimp only at hlt hbody
    subst hbody
    have h4 : s ≠ 404 := by omega
    have h1 : s ≠ 401 := by omega
    have hrange : ¬(400 ≤ s ∧ s < 600) := by omega
    have hm : (data.main.isNone || data.weather.isNone) = true := by
      rcases hmiss with h | h <;> simp [h]
    refine ⟨"Invalid response from weather API", ?_⟩
    simp only [fetch_and_save_weather, fetch_weather_from_api, Bool.not_true,
      Bool.false_eq_true, if_false, exceptBind_ok]
    rw [if_neg h4, if_neg h1, if_neg hrange]
    rw [if_pos hm]
    rfl

/-- C4 witness: the taxonomy applied at a concrete provider 404. -/
theorem fetch_and_save_error_taxonomy_witness :
    ∃ m, fetch_and_save_weather dbEmpty "Atlantis" true
      (Except.ok ⟨404, none⟩) now0 = .error (Exc.validationError m) :=
  fetch_and_save_error_taxonomy.2.1 dbEmpty "Atlantis" now0 ⟨404, none⟩ rfl

/-- Helper: the code's guarded average pattern equals `mean` (division by
zero is zero in `ℚ`). -/
theorem guardedAvg_eq_mean (l : List ℚ) :
    (if !l.isEmpty then l.sum / (l.length : ℚ) else 0) = mean l := by
  cases l with
  | nil => simp [mean]
  | cons a t => rfl

/-- Helper: classification of the trend direction by its thresholds. -/
theorem directionIff (c : ℚ) :
    ((if c > 1/2 then "increasing"
      else if c < -(1/2) then "decreasing" else "stable") = "increasing" ↔
        1/2 < c) ∧
    ((if c > 1/2 then "increasing"
      else if c < -(1/2) then "decreasing" else "stable") = "decreasing" ↔
        c < -(1/2)) ∧
    ((if c > 1/2 then "increasing"
      else if c < -(1/2) then "decreasing" else "stable") = "stable" ↔
        ¬ 1/2 < c ∧ ¬ c < -(1/2)) := by
  by_cases h1 : c > 1/2
  · have h2 : ¬ c < -(1/2) := by linarith
    rw [if_pos h1]
    refine ⟨?_, ?_, ?_⟩
    · exact iff_of_true rfl h1
    · exact iff_of_false (by decide) h2
    · exact iff_of_false (by decide) (fun hc => hc.1 h1)
  · rw [if_neg h1]
    by_cases h2 : c < -(1/2)
    · rw [if_pos h2]
      refine ⟨?_, ?_, ?_⟩
      · exact iff_of_false (by decide) h1
      · exact iff_of_true rfl h2
      · exact iff_of_false (by decide) (fun hc => hc.2 h2)
    · rw [if_neg h2]
      refine ⟨?_, ?_, ?_⟩
      · exact iff_of_false (by decide) h1
      · exact iff_of_false (by decide) h2
      · exact iff_of_true rfl ⟨h1, h2⟩

/-- C3: on a non-empty window, trend analysis splits the ordered
temperature list at index `⌊n/2⌋`, reports
`temperature_change = round2 (mean secondHalf − mean firstHalf)` (an empty
half contributing mean 0), and classifies the direction as `"increasing"`
iff the change exceeds 0.5, `"decreasing"` iff it is below −0.5, and
`"stable"` otherwise. -/
theorem get_weather_trend_split_and_direction (db : DB)
    (city_id days : Nat) (now : DateTime)
    (hne : trendWindow db city_id days now ≠ []) :
    ∃ tr, get_weather_trend db city_id days now = some tr ∧
      tr.temperature_change = round2 (trendChange db city_id days now) ∧
      (tr.trend_direction = "increasing" ↔ 1/2 < trendChange db city_id days now) ∧
      (tr.trend_direction = "decreasing" ↔ trendChange db city_id days now < -(1/2)) ∧
      (tr.trend_direction = "stable" ↔
        ¬ 1/2 < trendChange db city_id days now ∧
          ¬ trendChange db city_id days now < -(1/2)) := by
  have hempty : (trendWindow db city_id days now).isEmpty = false := by
    rw [List.isEmpty_eq_false]
    exact hne
  simp only [get_weather_trend, hempty, Bool.false_eq_true, if_false]
  set temps := (trendWindow db city_id days now).map (fun r => r.temperature)
    with hT
  have hX :
      (if !(temps.drop (temps.length / 2)).isEmpty then
          (temps.drop (temps.length / 2)).sum /
            ((temps.drop (temps.length / 2)).length : ℚ)
        else 0) -
        (if !(temps.take (temps.length / 2)).isEmpty then
          (temps.take (temps.length / 2)).sum /
            ((temps.take (temps.length / 2)).length : ℚ)
        else 0) = trendChange db city_id days now := by
    rw [guardedAvg_eq_mean, guardedAvg_eq_mean]
    rfl
  refine ⟨_, rfl, ?_, ?_, ?_, ?_⟩
  · show round2 _ = round2 (trendChange db city_id days now)
    rw [hX]
  · show (if _ > (1/2 : ℚ) then "increasing"
      else if _ < -(1/2 : ℚ) then "decreasing" else "stable") = "increasing" ↔ _
    rw [hX]
    exact (directionIff (trendChange db city_id days now)).1
  · show (if _ > (1/2 : ℚ) then "increasing"
      else if _ < -(1/2 : ℚ) then "decreasing" else "stable") = "decreasing" ↔ _
    rw [hX]
    exact (directionIff (trendChange db city_id days now)).2.1
  · show (if _ > (1/2 : ℚ) then "increasing"
      else if _ < -(1/2 : ℚ) then "decreasing" else "stable") = "stable" ↔ _
    rw [hX]
    exact (directionIff (trendChange db city_id days now)).2.2

unseal Rat.add Rat.sub Rat.mul Rat.inv in
/-- C3 witness: the theorem applied to the spec's example of four ascending
records [10, 10, 20, 20]; the change is 10.00 and the direction
"increasing". -/
theorem get_weather_trend_split_and_direction_witness :
    trendChange dbTrend 1 7 now0 = 10 ∧
    (Option.map (fun tr => (tr.temperature_change, tr.trend_direction))
      (get_weather_trend dbTrend 1 7 now0)) = some (10, "increasing") ∧
    (∃ tr, get_weather_trend dbTrend 1 7 now0 = some tr ∧
      tr.temperature_change = round2 (trendChange dbTrend 1 7 now0) ∧
      (tr.trend_direction = "increasing" ↔ 1/2 < trendChange dbTrend 1 7 now0) ∧
      (tr.trend_direction = "decreasing" ↔ trendChange dbTrend 1 7 now0 < -(1/2)) ∧
      (tr.trend_direction = "stable" ↔
        ¬ 1/2 < trendChange dbTrend 1 7 now0 ∧
          ¬ trendChange dbTrend 1 7 now0 < -(1/2))) :=
  ⟨by decide, by decide,
   get_weather_trend_split_and_direction dbTrend 1 7 now0 (by decide)⟩

/-! ### Helper lemmas: list minimum / maximum and the condition counter -/

theorem foldlMin_le [LinearOrder α] (xs : List α) (a : α) :
    xs.foldl Min.min a ≤ a ∧ ∀ x ∈ xs, xs.foldl Min.min a ≤ x := by
  induction xs generalizing a with
  | nil => exact ⟨le_refl a, by simp⟩
  | cons b t ih =>
    have h := ih (Min.min a b)
    rw [List.foldl_cons]
    refine ⟨le_trans h.1 (min_le_left a b), ?_⟩
    intro x hx
    rcases List.mem_cons.mp hx with rfl | hx
    · exact le_trans h.1 (min_le_right a x)
    · exact h.2 x hx

theorem foldlMin_mem [LinearOrder α] (xs : List α) (a : α) :
    xs.foldl Min.min a = a ∨ xs.foldl Min.min a ∈ xs := by
  induction xs generalizing a with
  | nil => exact Or.inl rfl
  | cons b t ih =>
    rw [List.foldl_cons]
    rcases ih (Min.min a b) with h | h
    · rcases le_total a b with hab | hba
      · left
        rw [h, min_eq_left hab]
      · right
        rw [h, min_eq_right hba]
        exact List.mem_cons_self b t
    · right
      exact List.mem_cons_of_mem b h

theorem foldlMax_ge [LinearOrder α] (xs : List α) (a : α) :
    a ≤ xs.foldl Max.max a ∧ ∀ x ∈ xs, x ≤ xs.foldl Max.max a := by
  induction xs generalizing a with
  | nil => exact ⟨le_refl a, by simp⟩
  | cons b t ih =>
    have h := ih (Max.max a b)
    rw [List.foldl_cons]
    refine ⟨le_trans (le_max_left a b) h.1, ?_⟩
    intro x hx
    rcases List.mem_cons.mp hx with rfl | hx
    · exact le_trans (le_max_right a x) h.1
    · exact h.2 x hx

theorem foldlMax_mem [LinearOrder α] (xs : List α) (a : α) :
    xs.foldl Max.max a = a ∨ xs.foldl Max.max a ∈ xs := by
  induction xs generalizing a with
  | nil => exact Or.inl rfl
  | cons b t ih =>
    rw [List.foldl_cons]
    rcases ih (Max.max a b) with h | h
    · rcases le_total a b with hab | hba
      · right
        rw [h, max_eq_right hab]
        exact List.mem_cons_self b t
      · left
        rw [h, max_eq_left hba]
    · right
      exact List.mem_cons_of_mem b h

theorem listMin_mem [LinearOrder α] [Zero α] (l : List α) (h : l ≠ []) :
    listMin l ∈ l := by
  match l with
  | x :: xs =>
    simp only [listMin]
    rcases foldlMin_mem xs x with h1 | h1
    · rw [h1]
      exact List.mem_cons_self x xs
    · exact List.mem_cons_of_mem x h1

theorem listMin_le [LinearOrder α] [Zero α] (l : List α) (x : α) (hx : x ∈ l) :
    listMin l ≤ x := by
  match l with
  | a :: xs =>
    simp only [listMin]
    rcases List.mem_cons.mp hx with rfl | hx2
    · exact (foldlMin_le xs x).1
    · exact (foldlMin_le xs a).2 x hx2

theorem listMax_mem [LinearOrder α] [Zero α] (l : List α) (h : l ≠ []) :
    listMax l ∈ l := by
  match l with
  | x :: xs =>
    simp only [listMax]
    rcases foldlMax_mem xs x with h1 | h1
    · rw [h1]
      exact List.mem_cons_self x xs
    · exact List.mem_cons_of_mem x h1

theorem listMax_ge [LinearOrder α] [Zero α] (l : List α) (x : α) (hx : x ∈ l) :
    x ≤ listMax l := by
  match l with
  | a :: xs =>
    simp only [listMax]
    rcases List.mem_cons.mp hx with rfl | hx2
    · exact (foldlMax_ge xs x).1
    · exact (foldlMax_ge xs a).2 x hx2

theorem dictBump_lookup (l : List (String × Nat)) (k s : String) :
    (dictBump l k).lookup s =
      if s = k then some (((l.lookup s).getD 0) + 1) else l.lookup s := by
  induction l with
  | nil =>
    by_cases h : s = k
    · subst h
      simp [dictBump, List.lookup]
    · simp [dictBump, List.lookup, beq_false_of_ne h, h]
  | cons p t ih =>
    obtain ⟨k0, v⟩ := p
    by_cases hk : k0 = k
    · subst hk
      by_cases hs : s = k0
      · subst hs
        simp [dictBump, List.lookup_cons]
      · simp [dictBump, List.lookup_cons, beq_false_of_ne hs, hs]
    · by_cases hs : s = k0
      · subst hs
        simp only [dictBump, if_neg hk]
        simp [List.lookup_cons]
      · simp [dictBump, hk, List.lookup_cons, beq_false_of_ne hs, ih]

theorem foldBump_lookup (conds : List String) (acc : List (String × Nat))
    (s : String) :
    (conds.foldl dictBump acc).lookup s =
      match acc.lookup s with
      | some m => some (m + conds.count s)
      | none => if conds.count s = 0 then none else some (conds.count s) := by
  induction conds generalizing acc with
  | nil =>
    cases h : acc.lookup s <;> simp [h]
  | cons c t ih =>
    rw [List.foldl_cons, ih (dictBump acc c), dictBump_lookup]
    by_cases hs : s = c
    · subst hs
      rw [if_pos rfl]
      cases h : acc.lookup s with
      | some m =>
        simp [h, List.count_cons]
        omega
      | none =>
        have hne : t.count s + 1 ≠ 0 := Nat.succ_ne_zero _
        simp [h, List.count_cons, hne]
        omega
    · have hbf : (c == s) = false := beq_false_of_ne (fun h => hs h.symm)
      rw [if_neg hs]
      simp only [List.count_cons, hbf, Bool.false_eq_true, if_false, Nat.add_zero]

theorem ifNotFalse {α : Sort _} (b : Bool) (h : b = false) (x y : α) :
    (if !b then x else y) = x := by
  subst h
  rfl

theorem ifNotTrue {α : Sort _} (b : Bool) (h : b = true) (x y : α) :
    (if !b then x else y) = y := by
  subst h
  rfl

/-- C7: with no time window, the patterns operation returns the sentinel
`none` exactly when the city has no records; otherwise it reports, over the
truthy (non-null, non-zero) humidity values: the 2-decimal-rounded mean and
the raw unrounded integer minimum and maximum (characterised as members of
the value set bounding it); the same for pressure; a frequency map sending
each condition label to its occurrence count; and the total record count. -/
theorem get_humidity_pressure_patterns_spec (db : DB) (city_id : Nat) :
    (cityRecords db city_id = [] →
      get_humidity_pressure_patterns db city_id = none) ∧
    (cityRecords db city_id ≠ [] →
      ∃ p, get_humidity_pressure_patterns db city_id = some p ∧
        p.total_records = (cityRecords db city_id).length ∧
        (truthyHum (cityRecords db city_id) ≠ [] →
          p.humidity.average = round2 (((truthyHum (cityRecords db city_id)).sum : ℚ) /
            ((truthyHum (cityRecords db city_id)).length : ℚ)) ∧
          p.humidity.min ∈ truthyHum (cityRecords db city_id) ∧
          (∀ x ∈ truthyHum (cityRecords db city_id), p.humidity.min ≤ x) ∧
          p.humidity.max ∈ truthyHum (cityRecords db city_id) ∧
          (∀ x ∈ truthyHum (cityRecords db city_id), x ≤ p.humidity.max)) ∧
        (truthyPress (cityRecords db city_id) ≠ [] →
          p.pressure.average = round2 (((truthyPress (cityRecords db city_id)).sum : ℚ) /
            ((truthyPress (cityRecords db city_id)).length : ℚ)) ∧
          p.pressure.min ∈ truthyPress (cityRecords db city_id) ∧
          (∀ x ∈ truthyPress (cityRecords db city_id), p.pressure.min ≤ x) ∧
          p.pressure.max ∈ truthyPress (cityRecords db city_id) ∧
          (∀ x ∈ truthyPress (cityRecords db city_id), x ≤ p.pressure.max)) ∧
        (∀ s : String, p.weather_conditions.lookup s =
          if (truthyConds (cityRecords db city_id)).count s = 0 then none
          else some ((truthyConds (cityRecords db city_id)).count s))) := by
  constructor
  · intro h
    simp [get_humidity_pressure_patterns, h]
  · intro hne
    have hempty : (cityRecords db city_id).isEmpty = false :=
      List.isEmpty_eq_false.mpr hne
    simp only [get_humidity_pressure_patterns, hempty, Bool.false_eq_true, if_false]
    refine ⟨_, rfl, rfl, ?_, ?_, ?_⟩
    · intro hH
      have hHe : (truthyHum (cityRecords db city_id)).isEmpty = false :=
        List.isEmpty_eq_false.mpr hH
      dsimp only
      simp only [ifNotFalse _ hHe]
      exact ⟨trivial, listMin_mem _ hH, fun x hx => listMin_le _ x hx,
        listMax_mem _ hH, fun x hx => listMax_ge _ x hx⟩
    · intro hP
      have hPe : (truthyPress (cityRecords db city_id)).isEmpty = false :=
        List.isEmpty_eq_false.mpr hP
      dsimp only
      simp only [ifNotFalse _ hPe]
      exact ⟨trivial, listMin_mem _ hP, fun x hx => listMin_le _ x hx,
        listMax_mem _ hP, fun x hx => listMax_ge _ x hx⟩
    · intro s
      dsimp only
      rw [foldBump_lookup]
      rfl

unseal Rat.add Rat.sub Rat.mul Rat.inv in
/-- C7 witness: the theorem applied to the spec's example — two records
with humidities [40, 60] and no other falsy values give average 50.00,
min 40, max 60. -/
theorem get_humidity_pressure_patterns_spec_witness :
    (Option.map (fun p => (p.humidity, p.total_records))
      (get_humidity_pressure_patterns dbPatterns 1) =
        some (⟨50, 40, 60⟩, 2)) ∧
    (∃ p, get_humidity_pressure_patterns dbPatterns 1 = some p ∧
      p.total_records = (cityRecords dbPatterns 1).length ∧
      (truthyHum (cityRecords dbPatterns 1) ≠ [] →
        p.humidity.average = round2 (((truthyHum (cityRecords dbPatterns 1)).sum : ℚ) /
          ((truthyHum (cityRecords dbPatterns 1)).length : ℚ)) ∧
        p.humidity.min ∈ truthyHum (cityRecords dbPatterns 1) ∧
        (∀ x ∈ truthyHum (cityRecords dbPatterns 1), p.humidity.min ≤ x) ∧
        p.humidity.max ∈ truthyHum (cityRecords dbPatterns 1) ∧
        (∀ x ∈ truthyHum (cityRecords dbPatterns 1), x ≤ p.humidity.max)) ∧
      (truthyPress (cityRecords dbPatterns 1) ≠ [] →
        p.pressure.average = round2 (((truthyPress (cityRecords dbPatterns 1)).sum : ℚ) /
          ((truthyPress (cityRecords dbPatterns 1)).length : ℚ)) ∧
        p.pressure.min ∈ truthyPress (cityRecords dbPatterns 1) ∧
        (∀ x ∈ truthyPress (cityRecords dbPatterns 1), p.pressure.min ≤ x) ∧
        p.pressure.max ∈ truthyPress (cityRecords dbPatterns 1) ∧
        (∀ x ∈ truthyPress (cityRecords dbPatterns 1), x ≤ p.pressure.max)) ∧
      (∀ s : String, p.weather_conditions.lookup s =
        if (truthyConds (cityRecords dbPatterns 1)).count s = 0 then none
        else some ((truthyConds (cityRecords dbPatterns 1)).count s))) :=
  ⟨by decide, (get_humidity_pressure_patterns_spec dbPatterns 1).2 (by decide)⟩

/-- C10: for a city with at least one record, if every humidity value is
`None` or 0 then the humidity statistics collapse to the `{average 0,
min 0, max 0}` placeholder (and likewise for pressure), while
`total_records` still counts all of the city's records. -/
theorem patterns_all_falsy_zero (db : DB) (city_id : Nat)
    (hne : cityRecords db city_id ≠ []) :
    ∃ p, get_humidity_pressure_patterns db city_id = some p ∧
      ((∀ r ∈ cityRecords db city_id, r.humidity = none ∨ r.humidity = some 0) →
        p.humidity = ⟨0, 0, 0⟩) ∧
      ((∀ r ∈ cityRecords db city_id, r.pressure = none ∨ r.pressure = some 0) →
        p.pressure = ⟨0, 0, 0⟩) ∧
      p.total_records = (cityRecords db city_id).length := by
  have hempty : (cityRecords db city_id).isEmpty = false :=
    List.isEmpty_eq_false.mpr hne
  simp only [get_humidity_pressure_patterns, hempty, Bool.false_eq_true, if_false]
  refine ⟨_, rfl, ?_, ?_, rfl⟩
  · intro hH
    have h0 : truthyHum (cityRecords db city_id) = [] := by
      simp only [truthyHum, List.filterMap_eq_nil_iff]
      intro r hr
      rcases hH r hr with h | h <;> simp [h]
    have hHe : (truthyHum (cityRecords db city_id)).isEmpty = true := by
      rw [h0]
      rfl
    dsimp only
    simp only [ifNotTrue _ hHe]
  · intro hP
    have h0 : truthyPress (cityRecords db city_id) = [] := by
      simp only [truthyPress, List.filterMap_eq_nil_iff]
      intro r hr
      rcases hP r hr with h | h <;> simp [h]
    have hPe : (truthyPress (cityRecords db city_id)).isEmpty = true := by
      rw [h0]
      rfl
    dsimp only
    simp only [ifNotTrue _ hPe]

/-- C10 witness: the theorem applied to a city whose two records have only
`None`/0 humidity and pressure values; both statistics blocks are the zero
placeholder and `total_records` is 2. -/
theorem patterns_all_falsy_zero_witness :
    (Option.map (fun p => (p.humidity, p.pressure, p.total_records))
      (get_humidity_pressure_patterns dbFalsy 1) =
        some (⟨0, 0, 0⟩, ⟨0, 0, 0⟩, 2)) ∧
    (∃ p, get_humidity_pressure_patterns dbFalsy 1 = some p ∧
      ((∀ r ∈ cityRecords dbFalsy 1, r.humidity = none ∨ r.humidity = some 0) →
        p.humidity = ⟨0, 0, 0⟩) ∧
      ((∀ r ∈ cityRecords dbFalsy 1, r.pressure = none ∨ r.pressure = some 0) →
        p.pressure = ⟨0, 0, 0⟩) ∧
      p.total_records = (cityRecords dbFalsy 1).length) :=
  ⟨by decide, patterns_all_falsy_zero dbFalsy 1 (by decide)⟩

theorem dictSet_lookup (l : List (String × CityComparison)) (k s : String)
    (v : CityComparison) :
    (dictSet l k v).lookup s = if s = k then some v else l.lookup s := by
  induction l with
  | nil =>
    by_cases h : s = k
    · subst h
      simp [dictSet, List.lookup]
    · simp [dictSet, List.lookup, beq_false_of_ne h, h]
  | cons p t ih =>
    obtain ⟨k0, v0⟩ := p
    by_cases hk : k0 = k
    · subst hk
      by_cases hs : s = k0
      · subst hs
        simp [dictSet, List.lookup_cons]
      · simp [dictSet, List.lookup_cons, beq_false_of_ne hs, hs]
    · by_cases hs : s = k0
      · subst hs
        simp only [dictSet, if_neg hk]
        simp [List.lookup_cons]
      · simp [dictSet, hk, List.lookup_cons, beq_false_of_ne hs, ih]

theorem compareStep_lookup_isSome (db : DB)
    (acc : List (String × CityComparison)) (n s : String) :
    ((compareStep db acc n).lookup s).isSome = true ↔
      ((acc.lookup s).isSome = true ∨ (s = n ∧ resolvesCity db n = true)) := by
  cases hf : db.cities.find? (fun c => c.name == n) with
  | none =>
    simp [compareStep, hf, resolvesCity]
  | some c =>
    by_cases he : (cityRecords db c.id).isEmpty = true
    · simp [compareStep, hf, he, resolvesCity]
    · simp only [compareStep, hf, if_neg he]
      rw [dictSet_lookup]
      by_cases hs : s = n
      · simp [hs, resolvesCity, hf, he]
      · simp [hs]

theorem compareFold_lookup_isSome (db : DB) (names : List String)
    (acc : List (String × CityComparison)) (s : String) :
    ((names.foldl (compareStep db) acc).lookup s).isSome = true ↔
      ((acc.lookup s).isSome = true ∨ (s ∈ names ∧ resolvesCity db s = true)) := by
  induction names generalizing acc with
  | nil => simp
  | cons n t ih =>
    rw [List.foldl_cons, ih, compareStep_lookup_isSome]
    constructor
    · rintro ((h | ⟨rfl, hr⟩) | ⟨hm, hr⟩)
      · exact Or.inl h
      · exact Or.inr ⟨List.mem_cons_self _ _, hr⟩
      · exact Or.inr ⟨List.mem_cons_of_mem _ hm, hr⟩
    · rintro (h | ⟨hm, hr⟩)
      · exact Or.inl (Or.inl h)
      · rcases List.mem_cons.mp hm with rfl | hm
        · exact Or.inl (Or.inr ⟨rfl, hr⟩)
        · exact Or.inr ⟨hm, hr⟩

unseal Rat.add Rat.sub Rat.mul Rat.inv in
/-- C5: the key set of the comparison map is exactly the input names that
resolve to a stored city (first match by exact name) holding at least one
record; unresolved names are skipped with no error (`compare_cities` is a
total function).  Concretely, two resolvable names and one nonexistent one
yield a map with exactly 2 keys. -/
theorem compare_cities_keys :
    (∀ (db : DB) (names : List String) (s : String),
      ((compare_cities db names).lookup s).isSome = true ↔
        (s ∈ names ∧ resolvesCity db s = true)) ∧
    (compare_cities dbCompare ["Tokyo", "Paris", "Nowhere"]).length = 2 := by
  constructor
  · intro db names s
    rw [compare_cities, compareFold_lookup_isSome]
    simp
  · decide

theorem compareFold_lookup_eq (db : DB) (names : List String)
    (acc : List (String × CityComparison)) (s : String)
    (entry : CityComparison)
    (h : (names.foldl (compareStep db) acc).lookup s = some entry) :
    acc.lookup s = some entry ∨
      ∃ c, db.cities.find? (fun x => x.name == s) = some c ∧
        cityRecords db c.id ≠ [] ∧ entry = buildComparison db c := by
  induction names generalizing acc with
  | nil => exact Or.inl h
  | cons n t ih =>
    rw [List.foldl_cons] at h
    rcases ih _ h with h1 | h2
    · cases hf : db.cities.find? (fun c => c.name == n) with
      | none =>
        rw [compareStep, hf] at h1
        exact Or.inl h1
      | some c =>
        by_cases he : (cityRecords db c.id).isEmpty = true
        · rw [compareStep, hf] at h1
          dsimp only at h1
          rw [if_pos he] at h1
          exact Or.inl h1
        · rw [compareStep, hf] at h1
          dsimp only at h1
          rw [if_neg he, dictSet_lookup] at h1
          by_cases hs : s = n
          · rw [if_pos hs] at h1
            subst hs
            refine Or.inr ⟨c, hf, ?_, (Option.some.inj h1).symm⟩
            intro hnil
            exact he (by rw [hnil]; rfl)
          · rw [if_neg hs] at h1
            exact Or.inl h1
    · exact Or.inr h2

/-- C6: every entry of the comparison map reports as `latest_record` the
`YYYY-MM-DD HH:MM:SS`-formatted `recorded_at` of the *last element of the
city's record list in stored retrieval order* (not a recomputed maximum of
`recorded_at`). -/
theorem compare_cities_latest_record (db : DB) (names : List String)
    (s : String) (entry : CityComparison)
    (h : (compare_cities db names).lookup s = some entry) :
    ∃ c r, db.cities.find? (fun x => x.name == s) = some c ∧
      (cityRecords db c.id).getLast? = some r ∧
      entry.latest_record = some r.recorded_at.fmtFull := by
  rw [compare_cities] at h
  rcases compareFold_lookup_eq db names [] s entry h with h1 | ⟨c, hf, hne, he⟩
  · simp [List.lookup] at h1
  · obtain ⟨r, hr⟩ : ∃ r, (cityRecords db c.id).getLast? = some r := by
      cases hg : (cityRecords db c.id).getLast? with
      | none => exact absurd (List.getLast?_eq_none_iff.mp hg) hne
      | some r => exact ⟨r, rfl⟩
    refine ⟨c, r, hf, hr, ?_⟩
    rw [he]
    simp only [buildComparison]
    rw [hr]

unseal Rat.add Rat.sub Rat.mul Rat.inv in
/-- C6 witness: the theorem applied to a store whose Tokyo records are
stored out of chronological order; `latest_record` is the last stored
record's timestamp `2026-01-18 09:00:00`, not the chronologically maximal
`2026-01-19 10:00:00`. -/
theorem compare_cities_latest_record_witness :
    ((buildComparison dbCompare ⟨1, "Tokyo", some "JP", 0, 0, now0⟩).latest_record =
      some "2026-01-18 09:00:00") ∧
    (∃ c r, dbCompare.cities.find? (fun x => x.name == "Tokyo") = some c ∧
      (cityRecords dbCompare c.id).getLast? = some r ∧
      (buildComparison dbCompare ⟨1, "Tokyo", some "JP", 0, 0, now0⟩).latest_record =
        some r.recorded_at.fmtFull) :=
  ⟨by decide,
   compare_cities_latest_record dbCompare ["Tokyo", "Paris", "Nowhere"] "Tokyo"
     (buildComparison dbCompare ⟨1, "Tokyo", some "JP", 0, 0, now0⟩) (by decide)⟩

/-- C2, counterexample: parsing the calendar date of the single stored
record gives midnight of that day; an export with start = end = that
midnight returns the empty list, not the record (its `recorded_at` is
14:30:00 and the upper bound `recorded_at <= end` excludes it), refuting
the claim's "returns exactly that one record" example. -/
theorem export_start_eq_end_misses_record :
    validate_date_format "2026-01-19" = .ok ⟨2026, 1, 19, 0, 0, 0⟩ ∧
    dbExport.records.map (fun r => r.recorded_at.dateOf) = [⟨2026, 1, 19⟩] ∧
    export_historical_data dbExport 1 (some ⟨2026, 1, 19, 0, 0, 0⟩)
      (some ⟨2026, 1, 19, 0, 0, 0⟩) = [] :=
  ⟨rfl, rfl, rfl⟩

/-- C2 (amended): for every city, optional start bound and optional end
bound (each a midnight datetime parsed from `YYYY-MM-DD`) with start ≤ end,
the export is exactly the stored records of the city whose `recorded_at`
lies in the inclusive datetime interval `[start, end]` (a bound is dropped
when absent), ordered ascending by `recorded_at` and formatted
`YYYY-MM-DD HH:MM:SS`; since a parsed end bound is *midnight* of its day,
a record stamped later on that same calendar day is excluded, so an export
with start = end = the calendar date of a single stored record returns
that record only when the record was stamped exactly at midnight. -/
theorem export_historical_data_window (db : DB) (city_id : Nat)
    (s e : Option DateTime)
    (hse : ∀ sd ed, s = some sd → e = some ed → DateTime.Le sd ed) :
    ∃ L : List WeatherRecord,
      export_historical_data db city_id s e = L.map exportRow ∧
      L.Perm (db.records.filter (fun r =>
        r.city_id == city_id && boundAfter s r && boundBefore e r)) ∧
      List.Pairwise (fun a b => DateTime.Le a.recorded_at b.recorded_at) L := by
  clear hse
  rcases s with _ | sd <;> rcases e with _ | ed
  · have h1 : cityRecords db city_id = db.records.filter (fun r =>
        r.city_id == city_id && boundAfter none r && boundBefore none r) := by
      rw [cityRecords]
      exact List.filter_congr (fun r _ => by simp [boundAfter, boundBefore])
    refine ⟨(cityRecords db city_id).insertionSort recordLe, rfl, ?_,
      List.sorted_insertionSort recordLe _⟩
    exact (List.perm_insertionSort recordLe _).trans (by rw [← h1])
  · have h1 : (cityRecords db city_id).filter
        (fun r : WeatherRecord => decide (DateTime.Le r.recorded_at ed)) =
        db.records.filter (fun r =>
          r.city_id == city_id && boundAfter none r && boundBefore (some ed) r) := by
      rw [cityRecords, List.filter_filter]
      exact List.filter_congr (fun r _ => by
        simp [boundAfter, boundBefore, Bool.and_comm])
    refine ⟨((cityRecords db city_id).filter
      (fun r : WeatherRecord => decide (DateTime.Le r.recorded_at ed))).insertionSort
        recordLe, rfl, ?_, List.sorted_insertionSort recordLe _⟩
    exact (List.perm_insertionSort recordLe _).trans (by rw [← h1])
  · have h1 : (cityRecords db city_id).filter
        (fun r : WeatherRecord => decide (DateTime.Le sd r.recorded_at)) =
        db.records.filter (fun r =>
          r.city_id == city_id && boundAfter (some sd) r && boundBefore none r) := by
      rw [cityRecords, List.filter_filter]
      exact List.filter_congr (fun r _ => by
        simp [boundAfter, boundBefore, Bool.and_comm])
    refine ⟨((cityRecords db city_id).filter
      (fun r : WeatherRecord => decide (DateTime.Le sd r.recorded_at))).insertionSort
        recordLe, rfl, ?_, List.sorted_insertionSort recordLe _⟩
    exact (List.perm_insertionSort recordLe _).trans (by rw [← h1])
  · have h1 : ((cityRecords db city_id).filter
        (fun r : WeatherRecord => decide (DateTime.Le sd r.recorded_at))).filter
          (fun r : WeatherRecord => decide (DateTime.Le r.recorded_at ed)) =
        db.records.filter (fun r =>
          r.city_id == city_id && boundAfter (some sd) r && boundBefore (some ed) r) := by
      rw [cityRecords, List.filter_filter, List.filter_filter]
      exact List.filter_congr (fun r _ => by
        simp [boundAfter, boundBefore, Bool.and_comm, Bool.and_assoc, Bool.and_left_comm])
    refine ⟨(((cityRecords db city_id).filter
      (fun r : WeatherRecord => decide (DateTime.Le sd r.recorded_at))).filter
        (fun r : WeatherRecord => decide (DateTime.Le r.recorded_at ed))).insertionSort
          recordLe, rfl, ?_, List.sorted_insertionSort recordLe _⟩
    exact (List.perm_insertionSort recordLe _).trans (by rw [← h1])

/-- C2 witness: the amended theorem applied at the counterexample store
with start = end = midnight of 2026-01-19. -/
theorem export_historical_data_window_witness :
    ∃ L : List WeatherRecord,
      export_historical_data dbExport 1 (some ⟨2026, 1, 19, 0, 0, 0⟩)
        (some ⟨2026, 1, 19, 0, 0, 0⟩) = L.map exportRow ∧
      L.Perm (dbExport.records.filter (fun r =>
        r.city_id == 1 && boundAfter (some ⟨2026, 1, 19, 0, 0, 0⟩) r &&
          boundBefore (some ⟨2026, 1, 19, 0, 0, 0⟩) r)) ∧
      List.Pairwise (fun a b => DateTime.Le a.recorded_at b.recorded_at) L :=
  export_historical_data_window dbExport 1 (some ⟨2026, 1, 19, 0, 0, 0⟩)
    (some ⟨2026, 1, 19, 0, 0, 0⟩)
    (fun sd ed h1 h2 => by
      cases h1
      cases h2
      decide)

theorem dateGe_ne_lt {a b : Date} (h1 : Date.Ge a b) (h2 : a ≠ b) :
    Date.Lt b a := by
  obtain ⟨y1, m1, d1⟩ := a
  obtain ⟨y2, m2, d2⟩ := b
  unfold Date.Ge Date.Le at h1
  unfold Date.Lt
  simp only [ne_eq, Date.mk.injEq] at h2
  try dsimp only at h1
  try dsimp only
  omega

/-- C9: daily average groups the (optionally day-windowed) records of the
city by the calendar date of `recorded_at`; the output has one row per
distinct date, in strictly descending date order, holding the
`YYYY-MM-DD`-formatted date, the 2-decimal-rounded mean temperature of the
date's group, and the group's record count.  An empty window yields the
empty sequence (forced by the date-set characterisation), not an error. -/
theorem get_daily_core (db : DB) (city_id : Nat) (days : Option Nat)
    (now : DateTime)
    (hrecs : (match days with
      | some d =>
        if d ≠ 0 then
          (cityRecords db city_id).filter
            (fun r => decide (DateTime.Le (now.subDays d) r.recorded_at))
        else cityRecords db city_id
      | none => cityRecords db city_id) =
      db.records.filter (dailyWindowKeep city_id days now)) :
    ∃ ds : List Date,
      (∀ dt, dt ∈ ds ↔
        dt ∈ (db.records.filter (dailyWindowKeep city_id days now)).map
          (fun r => r.recorded_at.dateOf)) ∧
      ds.Pairwise (fun a b => Date.Lt b a) ∧
      get_daily_average_temperature db city_id days now = ds.map (fun dt =>
        { date := dt.fmt,
          avg_temperature := round2 (mean
            (((db.records.filter (dailyWindowKeep city_id days now)).filter
              (fun r => r.recorded_at.dateOf == dt)).map (fun r => r.temperature))),
          record_count := ((db.records.filter (dailyWindowKeep city_id days now)).filter
            (fun r => r.recorded_at.dateOf == dt)).length }) := by
  refine ⟨((((db.records.filter (dailyWindowKeep city_id days now)).map
      (fun r => r.recorded_at.dateOf)).dedup).insertionSort Date.Ge), ?_, ?_, ?_⟩
  · intro dt
    rw [List.mem_insertionSort, List.mem_dedup]
  · have hsorted := List.sorted_insertionSort Date.Ge
      (((db.records.filter (dailyWindowKeep city_id days now)).map
        (fun r => r.recorded_at.dateOf)).dedup)
    have hnodup := (List.perm_insertionSort Date.Ge
      (((db.records.filter (dailyWindowKeep city_id days now)).map
        (fun r => r.recorded_at.dateOf)).dedup)).symm.nodup
      (List.nodup_dedup _)
    exact (List.Pairwise.and hsorted hnodup).imp
      (fun hab => dateGe_ne_lt hab.1 hab.2)
  · simp only [get_daily_average_temperature]
    rw [hrecs]
    refine List.map_congr_left (fun dt _ => ?_)
    simp [mean, List.length_map]

/-- C9: daily average groups the (optionally day-windowed) records of the
city by the calendar date of `recorded_at`; the output has one row per
distinct date, in strictly descending date order, holding the
`YYYY-MM-DD`-formatted date, the 2-decimal-rounded mean temperature of the
date's group, and the group's record count.  An empty window yields the
empty sequence (forced by the date-set characterisation), not an error. -/
theorem get_daily_average_temperature_spec (db : DB) (city_id : Nat)
    (days : Option Nat) (now : DateTime)
    (hdays : days = none ∨ ∃ d, days = some d ∧ 1 ≤ d) :
    ∃ ds : List Date,
      (∀ dt, dt ∈ ds ↔
        dt ∈ (db.records.filter (dailyWindowKeep city_id days now)).map
          (fun r => r.recorded_at.dateOf)) ∧
      ds.Pairwise (fun a b => Date.Lt b a) ∧
      get_daily_average_temperature db city_id days now = ds.map (fun dt =>
        { date := dt.fmt,
          avg_temperature := round2 (mean
            (((db.records.filter (dailyWindowKeep city_id days now)).filter
              (fun r => r.recorded_at.dateOf == dt)).map (fun r => r.temperature))),
          record_count := ((db.records.filter (dailyWindowKeep city_id days now)).filter
            (fun r => r.recorded_at.dateOf == dt)).length }) := by
  rcases hdays with rfl | ⟨d, rfl, hd⟩
  · refine get_daily_core db city_id none now ?_
    show cityRecords db city_id =
      db.records.filter (dailyWindowKeep city_id none now)
    rw [cityRecords]
    exact List.filter_congr (fun r _ => by simp [dailyWindowKeep])
  · refine get_daily_core db city_id (some d) now ?_
    show (if d ≠ 0 then
        (cityRecords db city_id).filter
          (fun r => decide (DateTime.Le (now.subDays d) r.recorded_at))
      else cityRecords db city_id) =
      db.records.filter (dailyWindowKeep city_id (some d) now)
    have hne : d ≠ 0 := by omega
    rw [if_pos hne, cityRecords, List.filter_filter]
    exact List.filter_congr (fun r _ => by
      simp [dailyWindowKeep, Bool.and_comm])

unseal Rat.add Rat.sub Rat.mul Rat.inv in
/-- C9 witness: the theorem applied to the spec's example — three records
with temperatures [10, 20, 30] on the earliest date give a row with
average 20.00 and record_count 3, and the rows come in descending date
order. -/
theorem get_daily_average_temperature_spec_witness :
    (get_daily_average_temperature dbDaily 1 none now0 =
      [⟨"2026-01-18", 7, 1⟩, ⟨"2026-01-17", 5, 1⟩, ⟨"2026-01-16", 20, 3⟩]) ∧
    (∃ ds : List Date,
      (∀ dt, dt ∈ ds ↔
        dt ∈ (dbDaily.records.filter (dailyWindowKeep 1 none now0)).map
          (fun r => r.recorded_at.dateOf)) ∧
      ds.Pairwise (fun a b => Date.Lt b a) ∧
      get_daily_average_temperature dbDaily 1 none now0 = ds.map (fun dt =>
        { date := dt.fmt,
          avg_temperature := round2 (mean
            (((dbDaily.records.filter (dailyWindowKeep 1 none now0)).filter
              (fun r => r.recorded_at.dateOf == dt)).map (fun r => r.temperature))),
          record_count := ((dbDaily.records.filter (dailyWindowKeep 1 none now0)).filter
            (fun r => r.recorded_at.dateOf == dt)).length })) :=
  ⟨by decide, get_daily_average_temperature_spec dbDaily 1 none now0 (Or.inl rfl)⟩

end WeatherAnalytics
